import Mathlib

/-!
Shallow embedding of the manageLicense repository: the license issuance and
activation engine of `src/main.py` (FastAPI service) and `src/manage.py`
(CLI batch tool).  The SQLite table `licenses` is modelled as a list of rows
in insertion order; the `uuid.uuid4()` key generator and the
`datetime.datetime.now().isoformat()` clock are modelled as injected
functions from the iteration index (external randomness / time sources).
-/

namespace ManageLicense

/-- One row of the `licenses` table (schema in `init_db` of both files):
`key_str TEXT PRIMARY KEY, is_used INTEGER DEFAULT 0, hwid TEXT,
created_at TEXT, valid_days INTEGER, activated_at TEXT, note TEXT`. -/
structure LicenseRecord where
  key_str : String
  is_used : Nat
  hwid : Option String
  created_at : String
  valid_days : Int
  activated_at : Option String
  note : String
deriving Repr, DecidableEq

/-- The `licenses` table: rows in insertion order, keyed by `key_str`. -/
abbrev Store := List LicenseRecord

/-- The `ADMIN_PASSWORD` constant of `main.py`. -/
def ADMIN_PASSWORD : String := "your_secret_password"

/-- Row produced by `INSERT INTO licenses (key_str, valid_days, created_at, note)
VALUES (?, ?, ?, ?)`: `is_used` takes its column default 0, `hwid` and
`activated_at` are left NULL. -/
def mkRecord (key : String) (days : Int) (now note : String) : LicenseRecord :=
  { key_str := key, is_used := 0, hwid := none, created_at := now,
    valid_days := days, activated_at := none, note := note }

/-- Errors raised by the store itself. -/
inductive DBError where
  | duplicateKey
deriving Repr, DecidableEq

/-- An INSERT honouring the PRIMARY KEY constraint on `key_str`: sqlite raises
`IntegrityError` when the key already exists, otherwise the row is appended. -/
def insertLicense (store : Store) (r : LicenseRecord) : Except DBError Store :=
  if store.any (fun s => s.key_str == r.key_str) then .error .duplicateKey
  else .ok (store ++ [r])

/-- The `for _ in range(count)` loop shared verbatim by `generate_license`
(`main.py`) and `generate_keys` (`manage.py`): for each index generate a key
and a timestamp, INSERT, and append the key to the result list.  Neither file
catches `IntegrityError`, so the first duplicate aborts the remaining
iterations. -/
def insertBatch (keyFn nowFn : Nat → String) (days : Int) (note : String) :
    List Nat → Store → List String → Except DBError (Store × List String)
  | [], store, acc => .ok (store, acc)
  | i :: rest, store, acc =>
    match insertLicense store (mkRecord (keyFn i) days (nowFn i) note) with
    | .error e => .error e
    | .ok store' => insertBatch keyFn nowFn days note rest store' (acc ++ [keyFn i])

/-- `generate_keys` of `manage.py`: run the insert loop, then `conn.commit()`.
An uncaught `IntegrityError` propagates before the commit, so the table is
left unchanged in that case. -/
def generate_keys (count days : Int) (note : String) (keyFn nowFn : Nat → String)
    (store : Store) : Except DBError (List String) × Store :=
  match insertBatch keyFn nowFn days note (List.range count.toNat) store [] with
  | .ok (store', ks) => (.ok ks, store')
  | .error e => (.error e, store)

/-- Outcomes of the `POST /admin/generate` endpoint. -/
inductive IssueError where
  | wrongPassword
  | duplicateKey
deriving Repr, DecidableEq

/-- `generate_license` of `main.py` (`POST /admin/generate`): compares the
submitted password against `ADMIN_PASSWORD` and answers HTTP 403 before any
database access on mismatch; otherwise it runs the same insert loop and
commits.  It performs no validation of `count` or `days` whatsoever. -/
def generate_license (password : String) (count days : Int) (note : String)
    (keyFn nowFn : Nat → String) (store : Store) :
    Except IssueError (List String) × Store :=
  if password ≠ ADMIN_PASSWORD then (.error .wrongPassword, store)
  else
    match insertBatch keyFn nowFn days note (List.range count.toNat) store [] with
    | .ok (store', ks) => (.ok ks, store')
    | .error _ => (.error .duplicateKey, store)

/-- Outcomes of the CLI `gen` subcommand. -/
inductive CliError where
  | invalidCount
  | invalidValidity
  | duplicateKey
deriving Repr, DecidableEq

/-- The `gen` subcommand of `manage.py main`: rejects `count < 1 or count > 100`
("Error: --count must be between 1 and 100.") and `days != -1 and days <= 0`
("Error: --days must be -1 or a positive integer.") before touching the
database, then calls `generate_keys`. -/
def manage_gen (count days : Int) (note : String) (keyFn nowFn : Nat → String)
    (store : Store) : Except CliError (List String) × Store :=
  if count < 1 ∨ 100 < count then (.error .invalidCount, store)
  else if days ≠ -1 ∧ days ≤ 0 then (.error .invalidValidity, store)
  else
    match generate_keys count days note keyFn nowFn store with
    | (.ok ks, store') => (.ok ks, store')
    | (.error _, store') => (.error .duplicateKey, store')

/-- Response of the `POST /api/activate` endpoint: a JSON success body carrying
`days`, or an `HTTPException` (404 for an unknown key, 403 for a machine
mismatch) carrying its `detail` string. -/
inductive ActivateResult where
  | success (msg : String) (days : Int)
  | keyNotFound (detail : String)
  | machineMismatch (detail : String)
deriving Repr, DecidableEq

/-- The constant `detail` string of the HTTP 403 mismatch rejection in
`activate`; it mentions no machine identifier. -/
def mismatchDetail : String := "该密钥已被其他设备激活，无法重复使用"

/-- `SELECT * FROM licenses WHERE key_str=?` (`key_str` is the primary key). -/
def findLicense (store : Store) (key : String) : Option LicenseRecord :=
  store.find? (fun r => r.key_str == key)

/-- The row rewrite performed by
`UPDATE licenses SET is_used=1, hwid=?, activated_at=? WHERE key_str=?`. -/
def activateUpd (key hwid now : String) (s : LicenseRecord) : LicenseRecord :=
  if s.key_str == key then
    { s with is_used := 1, hwid := some hwid, activated_at := some now }
  else s

/-- `activate` of `main.py` (`POST /api/activate`): look the key up (404 if
absent); if `is_used == 1` answer by comparing the stored `hwid` with the
request's (idempotent success or 403 mismatch); otherwise UPDATE the row and
answer success.  Both success bodies carry the row's `valid_days`. -/
def activate (store : Store) (key hwid now : String) : ActivateResult × Store :=
  match findLicense store key with
  | none => (.keyNotFound "密钥不存在", store)
  | some r =>
    if r.is_used == 1 then
      if r.hwid == some hwid then
        (.success "欢迎回来" r.valid_days, store)
      else
        (.machineMismatch mismatchDetail, store)
    else
      (.success "激活成功" r.valid_days, store.map (activateUpd key hwid now))

/-- Two `POST /api/activate` requests racing on the same key.  The handler body
contains no `await` point between its SELECT and its UPDATE (all sqlite3 calls
are synchronous), so the single-threaded asyncio event loop runs each handler
to completion: a concurrent execution is one of the two serial orders, chosen
here by the schedule bit (`true` = the `m1` request runs first).  The triple
returned is (result of the `m1` call, result of the `m2` call, final table). -/
def runTwoActivations (store : Store) (key m1 m2 now1 now2 : String) :
    Bool → ActivateResult × ActivateResult × Store
  | true =>
    let p1 := activate store key m1 now1
    let p2 := activate p1.2 key m2 now2
    (p1.1, p2.1, p2.2)
  | false =>
    let p2 := activate store key m2 now2
    let p1 := activate p2.2 key m1 now1
    (p1.1, p2.1, p1.2)

/-- True on the JSON success response. -/
def isSuccess : ActivateResult → Bool
  | .success _ _ => true
  | _ => false

/-- True on the HTTP 403 machine-mismatch rejection. -/
def isMismatch : ActivateResult → Bool
  | .machineMismatch _ => true
  | _ => false

/-- The `days` field of a success response. -/
def resultDays : ActivateResult → Option Int
  | .success _ d => some d
  | _ => none

/-- True when the issuance endpoint answered success rather than an error. -/
def issueIsOk : Except IssueError (List String) → Bool
  | .ok _ => true
  | .error _ => false

/-- A table rewrite that changes only the validity data of the row at `key`:
used to state that `activate`'s accept/reject decision ignores `valid_days`
and `activated_at`. -/
def setValidity (key : String) (v : Int) (a : Option String) (store : Store) : Store :=
  store.map (fun r =>
    if r.key_str == key then { r with valid_days := v, activated_at := a } else r)

/-- A fixed sample key generator standing for `uuid.uuid4()`. -/
def kf0 : Nat → String := fun i => "K" ++ toString i

/-- A fixed sample clock standing for `datetime.datetime.now().isoformat()`. -/
def nf0 : Nat → String := fun _ => "2024-01-01T00:00:00"

/-! ### Helper lemmas -/

theorem activateUpd_key (key m now : String) (r : LicenseRecord) :
    (activateUpd key m now r).key_str = r.key_str := by
  unfold activateUpd
  split <;> rfl

theorem findLicense_map (store : Store) (key : String)
    (f : LicenseRecord → LicenseRecord) (hf : ∀ r, (f r).key_str = r.key_str) :
    findLicense (store.map f) key = (findLicense store key).map f := by
  induction store with
  | nil => rfl
  | cons a l ih =>
    unfold findLicense at ih ⊢
    simp only [List.map_cons, List.find?_cons, hf a]
    cases a.key_str == key with
    | false => exact ih
    | true => rfl

theorem findLicense_key (store : Store) (key : String) (r : LicenseRecord)
    (h : findLicense store key = some r) : r.key_str = key := by
  have := List.find?_some h
  simpa using this

theorem find_after_update (store : Store) (key m now : String) (r : LicenseRecord)
    (h : findLicense store key = some r) :
    findLicense (store.map (activateUpd key m now)) key =
      some { r with is_used := 1, hwid := some m, activated_at := some now } := by
  rw [findLicense_map store key _ (activateUpd_key key m now), h]
  have hk : (r.key_str == key) = true := by
    simp [findLicense_key store key r h]
  simp [activateUpd, hk]

theorem activate_unused_eq (store : Store) (key m now : String) (r : LicenseRecord)
    (hfind : findLicense store key = some r) (hfresh : r.is_used ≠ 1) :
    activate store key m now =
      (.success "激活成功" r.valid_days, store.map (activateUpd key m now)) := by
  unfold activate
  rw [hfind]
  have hb : (r.is_used == 1) = false := by simpa using hfresh
  simp [hb]

theorem activate_used_same (store : Store) (key m now : String) (r : LicenseRecord)
    (hfind : findLicense store key = some r) (hused : r.is_used = 1)
    (hbound : r.hwid = some m) :
    activate store key m now = (.success "欢迎回来" r.valid_days, store) := by
  unfold activate
  rw [hfind]
  simp [hused, hbound]

theorem activate_used_other (store : Store) (key m now : String) (r : LicenseRecord)
    (hfind : findLicense store key = some r) (hused : r.is_used = 1)
    (hbound : r.hwid ≠ some m) :
    activate store key m now = (.machineMismatch mismatchDetail, store) := by
  unfold activate
  rw [hfind]
  simp [hused, hbound]

theorem setValidity_find (store : Store) (key : String) (v : Int) (a : Option String)
    (r : LicenseRecord) (hfind : findLicense store key = some r) :
    findLicense (setValidity key v a store) key =
      some { r with valid_days := v, activated_at := a } := by
  unfold setValidity
  have hf : ∀ s : LicenseRecord,
      ((fun t : LicenseRecord =>
        if t.key_str == key then { t with valid_days := v, activated_at := a } else t) s).key_str
        = s.key_str := by
    intro s
    dsimp only
    split <;> rfl
  rw [findLicense_map store key _ hf, hfind]
  simp [findLicense_key store key r hfind]

/-! ### Claim theorems -/

/-- C9: a record in state `Unactivated` (`is_used = 0`): `activate` succeeds,
returns the success body with the record's `valid_days`, and afterwards the
record at that key has `is_used = 1`, `hwid = m1`, and `activated_at` set to
the activation time; all other fields are unchanged. -/
theorem c9_fresh_activation (store : Store) (key m1 now : String)
    (r : LicenseRecord) (hfind : findLicense store key = some r)
    (hfresh : r.is_used = 0) :
    (activate store key m1 now).1 = .success "激活成功" r.valid_days ∧
    findLicense (activate store key m1 now).2 key =
      some { r with is_used := 1, hwid := some m1, activated_at := some now } := by
  rw [activate_unused_eq store key m1 now r hfind (by rw [hfresh]; decide)]
  exact ⟨rfl, find_after_update store key m1 now r hfind⟩

/-- Witness for C9 on a concrete fresh record. -/
theorem c9_fresh_activation_witness :
    (activate [mkRecord "K0" 30 "t0" "n"] "K0" "M1" "t1").1 = .success "激活成功" 30 ∧
    findLicense (activate [mkRecord "K0" 30 "t0" "n"] "K0" "M1" "t1").2 "K0" =
      some { key_str := "K0", is_used := 1, hwid := some "M1", created_at := "t0",
             valid_days := 30, activated_at := some "t1", note := "n" } :=
  c9_fresh_activation [mkRecord "K0" 30 "t0" "n"] "K0" "M1" "t1"
    (mkRecord "K0" 30 "t0" "n") rfl rfl

/-- C7: re-activation from the bound machine is idempotent: on an `Activated`
record whose `hwid` equals the requesting machine, `activate` returns the same
success shape as a fresh activation (a success body carrying `valid_days`)
and leaves the table — in particular `hwid` and `activated_at` — unchanged. -/
theorem c7_reactivation_idempotent (store : Store) (key m1 now : String)
    (r : LicenseRecord) (hfind : findLicense store key = some r)
    (hused : r.is_used = 1) (hbound : r.hwid = some m1) :
    activate store key m1 now = (.success "欢迎回来" r.valid_days, store) ∧
    isSuccess (activate store key m1 now).1 = true ∧
    resultDays (activate store key m1 now).1 = some r.valid_days := by
  rw [activate_used_same store key m1 now r hfind hused hbound]
  exact ⟨rfl, rfl, rfl⟩

/-- A concrete activated record bound to machine "M1", used by witnesses. -/
def recActivated : LicenseRecord :=
  { key_str := "K0", is_used := 1, hwid := some "M1", created_at := "t0",
    valid_days := 30, activated_at := some "t1", note := "n" }

/-- Witness for C7 on a concrete activated record. -/
theorem c7_reactivation_idempotent_witness :
    activate [recActivated] "K0" "M1" "t2" = (.success "欢迎回来" 30, [recActivated]) ∧
    isSuccess (activate [recActivated] "K0" "M1" "t2").1 = true ∧
    resultDays (activate [recActivated] "K0" "M1" "t2").1 = some 30 :=
  c7_reactivation_idempotent [recActivated] "K0" "M1" "t2" recActivated rfl rfl rfl

/-- C8: on an `Activated` record bound to `m1`, an activation request from any
`m2 ≠ m1` is rejected with the HTTP 403 machine-mismatch error and the table
is unchanged.  The rejection's `detail` is the constant `mismatchDetail`,
the same for every bound machine, so the response never contains (nor depends
on) the bound machine identifier `m1`. -/
theorem c8_mismatch_rejection (store : Store) (key m1 m2 now : String)
    (r : LicenseRecord) (hfind : findLicense store key = some r)
    (hused : r.is_used = 1) (hbound : r.hwid = some m1) (hne : m2 ≠ m1) :
    activate store key m2 now = (.machineMismatch mismatchDetail, store) := by
  refine activate_used_other store key m2 now r hfind hused ?_
  rw [hbound]
  simp only [ne_eq, Option.some.injEq]
  exact fun h => hne h.symm

/-- Witness for C8 on a concrete activated record and a different machine. -/
theorem c8_mismatch_rejection_witness :
    activate [recActivated] "K0" "M2" "t2" = (.machineMismatch mismatchDetail, [recActivated]) :=
  c8_mismatch_rejection [recActivated] "K0" "M1" "M2" "t2" recActivated rfl rfl rfl (by decide)

/-- C6: `activate` passes `valid_days` through uninterpreted.  Whenever a
record exists for the key, every outcome is either a success carrying exactly
the stored `valid_days` or the constant machine-mismatch rejection; and the
accept/reject decision is unchanged under arbitrary modification of the
record's `valid_days` and `activated_at` and of the current time — so no
expiry is ever computed from `activatedAt + validDays`, and no activation is
rejected because the validity window elapsed. -/
theorem c6_validity_uninterpreted (store : Store) (key m now now' : String)
    (v : Int) (a : Option String) (r : LicenseRecord)
    (hfind : findLicense store key = some r) :
    (resultDays (activate store key m now).1 = some r.valid_days ∨
      (activate store key m now).1 = .machineMismatch mismatchDetail) ∧
    isSuccess (activate (setValidity key v a store) key m now').1 =
      isSuccess (activate store key m now).1 := by
  have hfind' := setValidity_find store key v a r hfind
  constructor
  · by_cases hused : r.is_used = 1
    · by_cases hb : r.hwid = some m
      · left
        rw [activate_used_same store key m now r hfind hused hb]
        rfl
      · right
        rw [activate_used_other store key m now r hfind hused hb]
    · left
      rw [activate_unused_eq store key m now r hfind hused]
      rfl
  · by_cases hused : r.is_used = 1
    · by_cases hb : r.hwid = some m
      · rw [activate_used_same store key m now r hfind hused hb,
            activate_used_same _ key m now' _ hfind' hused hb]
        rfl
      · rw [activate_used_other store key m now r hfind hused hb,
            activate_used_other _ key m now' _ hfind' hused hb]
    · rw [activate_unused_eq store key m now r hfind hused,
          activate_unused_eq _ key m now' _ hfind' hused]
      rfl

/-- A concrete record whose 1-day validity window from its 2020 activation has
long elapsed, used by the C6 witness. -/
def recExpired : LicenseRecord :=
  { key_str := "K0", is_used := 1, hwid := some "M1", created_at := "2020-01-01",
    valid_days := 1, activated_at := some "2020-01-02T00:00:00", note := "" }

/-- Witness for C6 on a record whose computed expiry (1 valid day from a 2020
activation) elapsed long before the 2026 request: the activation still
succeeds, returning the stored `valid_days` untouched. -/
theorem c6_validity_uninterpreted_witness :
    (resultDays (activate [recExpired] "K0" "M1" "2026-10-12T00:00:00").1 = some 1 ∨
      (activate [recExpired] "K0" "M1" "2026-10-12T00:00:00").1 =
        .machineMismatch mismatchDetail) ∧
    isSuccess (activate (setValidity "K0" 999 none [recExpired])
        "K0" "M1" "2030-01-01T00:00:00").1 =
      isSuccess (activate [recExpired] "K0" "M1" "2026-10-12T00:00:00").1 :=
  c6_validity_uninterpreted [recExpired] "K0" "M1" "2026-10-12T00:00:00"
    "2030-01-01T00:00:00" 999 none recExpired rfl

/-- C10: `generate_license` rejects any request whose password differs from
`ADMIN_PASSWORD` with HTTP 403, before any database access: the table is
unchanged and zero records are created. -/
theorem c10_wrong_password_rejected (password : String) (count days : Int)
    (note : String) (keyFn nowFn : Nat → String) (store : Store)
    (h : password ≠ ADMIN_PASSWORD) :
    generate_license password count days note keyFn nowFn store =
      (.error .wrongPassword, store) := by
  unfold generate_license
  rw [if_pos h]

/-- Witness for C10 with a concrete wrong password. -/
theorem c10_wrong_password_rejected_witness :
    generate_license "guess" 5 (-1) "" kf0 nf0 [] = (.error .wrongPassword, []) :=
  c10_wrong_password_rejected "guess" 5 (-1) "" kf0 nf0 [] (by decide)

/-- C1: two first-time activation requests with different machines racing on
the same fresh key.  The handler contains no await point between its SELECT
and its UPDATE, so the asyncio event loop runs each request to completion and
a concurrent execution is one of the two serial orders; under either schedule
exactly one request succeeds, the other fails with the machine-mismatch
rejection, and the final record is Activated with `hwid` equal to exactly the
winner's machine — never NULL and never both. -/
theorem c1_race_single_winner (store : Store) (key m1 m2 now1 now2 : String)
    (sched : Bool) (r : LicenseRecord)
    (hfind : findLicense store key = some r) (hfresh : r.is_used = 0)
    (hne : m1 ≠ m2) :
    ∃ r', findLicense (runTwoActivations store key m1 m2 now1 now2 sched).2.2 key
        = some r' ∧
      r'.is_used = 1 ∧
      ((isSuccess (runTwoActivations store key m1 m2 now1 now2 sched).1 = true ∧
        isMismatch (runTwoActivations store key m1 m2 now1 now2 sched).2.1 = true ∧
        r'.hwid = some m1) ∨
       (isMismatch (runTwoActivations store key m1 m2 now1 now2 sched).1 = true ∧
        isSuccess (runTwoActivations store key m1 m2 now1 now2 sched).2.1 = true ∧
        r'.hwid = some m2)) := by
  have hfresh' : r.is_used ≠ 1 := by rw [hfresh]; decide
  cases sched with
  | true =>
    have h1 := activate_unused_eq store key m1 now1 r hfind hfresh'
    have hfind1 := find_after_update store key m1 now1 r hfind
    have hb : (some m1 : Option String) ≠ some m2 := by
      simp only [ne_eq, Option.some.injEq]
      exact hne
    have h2 := activate_used_other (store.map (activateUpd key m1 now1)) key m2 now2
      _ hfind1 rfl hb
    refine ⟨{ r with is_used := 1, hwid := some m1, activated_at := some now1 },
      ?_, rfl, Or.inl ⟨?_, ?_, rfl⟩⟩
    · simp only [runTwoActivations, h1, h2]
      exact hfind1
    · simp only [runTwoActivations, h1, h2]
      rfl
    · simp only [runTwoActivations, h1, h2]
      rfl
  | false =>
    have h1 := activate_unused_eq store key m2 now2 r hfind hfresh'
    have hfind1 := find_after_update store key m2 now2 r hfind
    have hb : (some m2 : Option String) ≠ some m1 := by
      simp only [ne_eq, Option.some.injEq]
      exact fun h => hne h.symm
    have h2 := activate_used_other (store.map (activateUpd key m2 now2)) key m1 now1
      _ hfind1 rfl hb
    refine ⟨{ r with is_used := 1, hwid := some m2, activated_at := some now2 },
      ?_, rfl, Or.inr ⟨?_, ?_, rfl⟩⟩
    · simp only [runTwoActivations, h1, h2]
      exact hfind1
    · simp only [runTwoActivations, h1, h2]
      rfl
    · simp only [runTwoActivations, h1, h2]
      rfl

/-- Witness for C1 on a concrete fresh key and two distinct machines. -/
theorem c1_race_single_winner_witness :
    ∃ r', findLicense (runTwoActivations [mkRecord "K0" 30 "t0" ""]
        "K0" "A" "B" "t1" "t2" true).2.2 "K0" = some r' ∧
      r'.is_used = 1 ∧
      ((isSuccess (runTwoActivations [mkRecord "K0" 30 "t0" ""]
          "K0" "A" "B" "t1" "t2" true).1 = true ∧
        isMismatch (runTwoActivations [mkRecord "K0" 30 "t0" ""]
          "K0" "A" "B" "t1" "t2" true).2.1 = true ∧
        r'.hwid = some "A") ∨
       (isMismatch (runTwoActivations [mkRecord "K0" 30 "t0" ""]
          "K0" "A" "B" "t1" "t2" true).1 = true ∧
        isSuccess (runTwoActivations [mkRecord "K0" 30 "t0" ""]
          "K0" "A" "B" "t1" "t2" true).2.1 = true ∧
        r'.hwid = some "B")) :=
  c1_race_single_winner [mkRecord "K0" 30 "t0" ""] "K0" "A" "B" "t1" "t2" true
    (mkRecord "K0" 30 "t0" "") rfl rfl (by decide)

/-! ### The state invariant (C2) -/

/-- The per-row invariant of the spec: `hwid` and `activated_at` are both NULL
exactly on an `Unactivated` row (`is_used = 0`) and both set exactly on an
`Activated` row (`is_used = 1`). -/
def recordInv (r : LicenseRecord) : Prop :=
  ((r.hwid = none ∧ r.activated_at = none) ↔ r.is_used = 0) ∧
  ((r.hwid ≠ none ∧ r.activated_at ≠ none) ↔ r.is_used = 1)

theorem recordInv_mkRecord (key : String) (days : Int) (now note : String) :
    recordInv (mkRecord key days now note) := by
  constructor <;> simp [mkRecord]

theorem insertLicense_ok (store : Store) (r : LicenseRecord) (store' : Store)
    (h : insertLicense store r = .ok store') : store' = store ++ [r] := by
  unfold insertLicense at h
  split at h
  · exact absurd h (by simp)
  · injection h with h
    exact h.symm

theorem insertBatch_inv (keyFn nowFn : Nat → String) (days : Int) (note : String)
    (idxs : List Nat) :
    ∀ store acc store' ks,
      insertBatch keyFn nowFn days note idxs store acc = .ok (store', ks) →
      (∀ r ∈ store, recordInv r) → ∀ r ∈ store', recordInv r := by
  induction idxs with
  | nil =>
    intro store acc store' ks h hinv
    unfold insertBatch at h
    injection h with h
    injection h with h1 h2
    rw [← h1]
    exact hinv
  | cons i rest ih =>
    intro store acc store' ks h hinv
    unfold insertBatch at h
    cases hins : insertLicense store (mkRecord (keyFn i) days (nowFn i) note) with
    | error e =>
      rw [hins] at h
      exact absurd h (by simp)
    | ok s2 =>
      rw [hins] at h
      refine ih s2 (acc ++ [keyFn i]) store' ks h ?_
      rw [insertLicense_ok store _ s2 hins]
      intro r hr
      rcases List.mem_append.1 hr with hr | hr
      · exact hinv r hr
      · rw [List.mem_singleton.1 hr]
        exact recordInv_mkRecord (keyFn i) days (nowFn i) note

theorem generate_keys_inv (count days : Int) (note : String)
    (keyFn nowFn : Nat → String) (store : Store)
    (hinv : ∀ r ∈ store, recordInv r) :
    ∀ r ∈ (generate_keys count days note keyFn nowFn store).2, recordInv r := by
  unfold generate_keys
  cases h : insertBatch keyFn nowFn days note (List.range count.toNat) store [] with
  | error e => exact hinv
  | ok p =>
    obtain ⟨s2, ks⟩ := p
    exact insertBatch_inv keyFn nowFn days note (List.range count.toNat)
      store [] s2 ks h hinv

theorem generate_license_inv (password : String) (count days : Int) (note : String)
    (keyFn nowFn : Nat → String) (store : Store)
    (hinv : ∀ r ∈ store, recordInv r) :
    ∀ r ∈ (generate_license password count days note keyFn nowFn store).2, recordInv r := by
  unfold generate_license
  split
  · exact hinv
  · cases h : insertBatch keyFn nowFn days note (List.range count.toNat) store [] with
    | error e => exact hinv
    | ok p =>
      obtain ⟨s2, ks⟩ := p
      exact insertBatch_inv keyFn nowFn days note (List.range count.toNat)
        store [] s2 ks h hinv

theorem manage_gen_inv (count days : Int) (note : String)
    (keyFn nowFn : Nat → String) (store : Store)
    (hinv : ∀ r ∈ store, recordInv r) :
    ∀ r ∈ (manage_gen count days note keyFn nowFn store).2, recordInv r := by
  unfold manage_gen
  split
  · exact hinv
  · split
    · exact hinv
    · have hg := generate_keys_inv count days note keyFn nowFn store hinv
      cases h : generate_keys count days note keyFn nowFn store with
      | mk res st =>
        rw [h] at hg
        cases res <;> exact hg

theorem activateUpd_inv (key m now : String) (r : LicenseRecord)
    (h : recordInv r) : recordInv (activateUpd key m now r) := by
  unfold activateUpd
  split
  · constructor <;> simp
  · exact h

theorem activate_store_cases (store : Store) (key m now : String) :
    (activate store key m now).2 = store ∨
    (activate store key m now).2 = store.map (activateUpd key m now) := by
  unfold activate
  cases findLicense store key with
  | none => exact Or.inl rfl
  | some r =>
    dsimp only
    split
    · split
      · exact Or.inl rfl
      · exact Or.inl rfl
    · exact Or.inr rfl

theorem activate_inv (store : Store) (key m now : String)
    (hinv : ∀ r ∈ store, recordInv r) :
    ∀ r ∈ (activate store key m now).2, recordInv r := by
  rcases activate_store_cases store key m now with h | h <;> rw [h]
  · exact hinv
  · intro r hr
    rcases List.mem_map.1 hr with ⟨r0, hr0, hrr⟩
    rw [← hrr]
    exact activateUpd_inv key m now r0 (hinv r0 hr0)

/-- The stores reachable by the program: the freshly created empty table,
grown and mutated only by the `POST /admin/generate` endpoint, the CLI `gen`
command, and the `POST /api/activate` endpoint. -/
inductive Reachable : Store → Prop where
  | init : Reachable []
  | httpGen (password : String) (count days : Int) (note : String)
      (keyFn nowFn : Nat → String) (s : Store) :
      Reachable s → Reachable (generate_license password count days note keyFn nowFn s).2
  | cliGen (count days : Int) (note : String) (keyFn nowFn : Nat → String)
      (s : Store) :
      Reachable s → Reachable (manage_gen count days note keyFn nowFn s).2
  | act (key hwid now : String) (s : Store) :
      Reachable s → Reachable (activate s key hwid now).2

/-- C2: every record of every reachable store satisfies the invariant —
`hwid` and `activated_at` are both NULL iff the record is Unactivated
(`is_used = 0`) and both set iff it is Activated (`is_used = 1`); record
creation and the activation transition both preserve this. -/
theorem c2_state_invariant (s : Store) (h : Reachable s) :
    ∀ r ∈ s, recordInv r := by
  induction h with
  | init =>
    intro r hr
    exact absurd hr (List.not_mem_nil r)
  | httpGen password count days note keyFn nowFn s hs ih =>
    exact generate_license_inv password count days note keyFn nowFn s ih
  | cliGen count days note keyFn nowFn s hs ih =>
    exact manage_gen_inv count days note keyFn nowFn s ih
  | act key hwid now s hs ih =>
    exact activate_inv s key hwid now ih

/-- Witness for C2: the record created by a one-key issuance on the empty
store (a reachable store) satisfies the invariant. -/
theorem c2_state_invariant_witness :
    recordInv (mkRecord "K0" (-1) "2024-01-01T00:00:00" "note") :=
  c2_state_invariant (generate_license ADMIN_PASSWORD 1 (-1) "note" kf0 nf0 []).2
    (Reachable.httpGen ADMIN_PASSWORD 1 (-1) "note" kf0 nf0 [] Reachable.init)
    (mkRecord "K0" (-1) "2024-01-01T00:00:00" "note") (by decide)

/-! ### Count and validity checks, duplicate handling (C3, C4, C5) -/

/-- C3 counterexample: the HTTP issuance endpoint performs no count
validation — `count = 101`, outside `[1, 100]`, is accepted (no InvalidCount
failure) and 101 records are created. -/
theorem c3_counterexample_http_accepts_101 :
    issueIsOk (generate_license ADMIN_PASSWORD 101 (-1) "" kf0 nf0 []).1 = true ∧
    (generate_license ADMIN_PASSWORD 101 (-1) "" kf0 nf0 []).2.length = 101 := by
  constructor <;> rfl

/-- C3 amended: only the CLI entry point enforces the count range — for every
`count` outside `[1, 100]` the `gen` subcommand fails with `InvalidCount`
before any store mutation, creating zero records. -/
theorem c3_cli_enforces_count (count days : Int) (note : String)
    (keyFn nowFn : Nat → String) (store : Store)
    (h : count < 1 ∨ 100 < count) :
    manage_gen count days note keyFn nowFn store = (.error .invalidCount, store) := by
  unfold manage_gen
  rw [if_pos h]

/-- Witness for the amended C3 at `count = 0`. -/
theorem c3_cli_enforces_count_witness :
    manage_gen 0 (-1) "" kf0 nf0 [] = (.error .invalidCount, []) :=
  c3_cli_enforces_count 0 (-1) "" kf0 nf0 [] (by decide)

/-- C5 counterexample: the HTTP issuance endpoint performs no validity
validation — `days = 0`, neither `-1` nor positive, is accepted and a record
with `valid_days = 0` is created instead of an InvalidValidity failure. -/
theorem c5_counterexample_http_accepts_zero_days :
    generate_license ADMIN_PASSWORD 1 0 "" kf0 nf0 [] =
      (.ok ["K0"], [mkRecord "K0" 0 "2024-01-01T00:00:00" ""]) := by
  rfl

/-- C5 amended: only the CLI entry point enforces the validity rule — for
every `days` that is neither `-1` nor positive, the `gen` subcommand fails
with `InvalidValidity` before any store mutation, creating zero records. -/
theorem c5_cli_enforces_validity (count days : Int) (note : String)
    (keyFn nowFn : Nat → String) (store : Store)
    (h1 : 1 ≤ count) (h2 : count ≤ 100) (hd1 : days ≠ -1) (hd2 : days ≤ 0) :
    manage_gen count days note keyFn nowFn store =
      (.error .invalidValidity, store) := by
  unfold manage_gen
  rw [if_neg (by omega), if_pos ⟨hd1, hd2⟩]

/-- Witness for the amended C5 at `days = 0`. -/
theorem c5_cli_enforces_validity_witness :
    manage_gen 1 0 "" kf0 nf0 [] = (.error .invalidValidity, []) :=
  c5_cli_enforces_validity 1 0 "" kf0 nf0 [] (by decide) (by decide)
    (by decide) (by decide)

/-- A pre-existing record whose key the injected generator will collide with. -/
def recDup : LicenseRecord := mkRecord "DUP" (-1) "t0" ""

/-- C4 counterexample: when the generated key collides with an existing one,
the batch is not retried — the `IntegrityError` surfaces and aborts the whole
batch: one requested key yields an error and zero new records. -/
theorem c4_counterexample_duplicate_aborts :
    generate_keys 1 (-1) "" (fun _ => "DUP") nf0 [recDup] =
      (.error .duplicateKey, [recDup]) := by
  rfl

/-- C4 amended: a `DuplicateKey` failure from the store is never recovered:
if the first generated key already exists, the whole batch aborts — the error
is surfaced to the caller, nothing is committed, and the table is unchanged. -/
theorem c4_duplicate_aborts_batch (count days : Int) (note : String)
    (keyFn nowFn : Nat → String) (store : Store)
    (hc : 1 ≤ count)
    (hdup : store.any (fun s => s.key_str == keyFn 0) = true) :
    generate_keys count days note keyFn nowFn store =
      (.error .duplicateKey, store) := by
  have hn : count.toNat ≠ 0 := by omega
  obtain ⟨m, hm⟩ := Nat.exists_eq_succ_of_ne_zero hn
  unfold generate_keys
  rw [hm, List.range_succ_eq_map]
  unfold insertBatch insertLicense
  simp only [mkRecord, hdup, if_true]

/-- Witness for the amended C4: a two-key batch on a store already holding the
colliding key aborts with the surfaced duplicate error. -/
theorem c4_duplicate_aborts_batch_witness :
    generate_keys 2 7 "x" (fun _ => "DUP") nf0 [recDup] =
      (.error .duplicateKey, [recDup]) :=
  c4_duplicate_aborts_batch 2 7 "x" (fun _ => "DUP") nf0 [recDup]
    (by decide) (by decide)

end ManageLicense
